import Mathlib

/-!
Verification development for the sink layer of this repository
(src/sinks/file.rs, src/sinks/partitioned_file.rs, src/sinks/console.rs,
src/sinks/util/encoding.rs).

Modelling conventions:
* Byte payloads (`Bytes`, `Vec<u8>`) are modelled at the UTF-8 text level as
  `String`; every payload produced by this code is UTF-8 text, and
  `Bytes::from` / `String::from_utf8` are the identity at that level.
* Machine I/O (polling the file-creation future, the framed writer's
  `start_send` and `poll_complete`) is modelled by per-call oracle arguments
  giving the outcome of the one poll the code performs on the handle.
* Panics are modelled as a distinguished outcome (`panicked`), or as `none`
  for a partial coercion.
* `serde_json` serialization of the internally constructed field mappings is
  total in the model (the code treats a serialization error as a
  programming-error-class panic and it cannot occur on these values).
-/

deriving instance DecidableEq for Except

namespace VectorSinks

/-- Encoding mode from src/sinks/util/encoding.rs (`BasicEncoding`). -/
inductive BasicEncoding where
  | Text
  | Json
deriving DecidableEq, BEq, Repr

/-- Field values of a log event (`event.rs` values, restricted to the shapes
the claims exercise: strings and integers). -/
inductive Value where
  | str (s : String)
  | int (n : Int)
deriving DecidableEq, Repr

/-- Textual form of a value (`ValueKind::to_string_lossy`). -/
def Value.to_string_lossy : Value → String
  | .str s => s
  | .int n => toString n

/-- Raw bytes of a value (`ValueKind::as_bytes().to_vec()`), modelled at the
UTF-8 text level, where it coincides with the textual form. -/
def Value.as_bytes (v : Value) : String :=
  v.to_string_lossy

/-- JSON rendering of a value, as serde_json prints it. -/
def Value.toJson : Value → String
  | .str s => "\"" ++ s ++ "\""
  | .int n => toString n

/-- The conventional message field name (`event::MESSAGE`). -/
def MESSAGE : String := "message"

/-- A log event: a mapping of field name to value (assoc list, insertion
order kept; `event.rs` is not under src/, the shape follows the spec's data
model: "a mapping of field name → typed value, with a conventional message
field"). -/
structure LogEvent where
  fields : List (String × Value)
deriving DecidableEq, Repr

/-- All fields of a log event (`LogEvent::all_fields`). -/
def LogEvent.all_fields (l : LogEvent) : List (String × Value) :=
  l.fields

/-- Field lookup (`LogEvent::get`). -/
def LogEvent.get (l : LogEvent) (key : String) : Option Value :=
  (l.fields.find? fun p => p.1 == key).map fun p => p.2

/-- Modelled from the spec: `event.rs` (`LogEvent::is_structured`) is not
under src/. Per the spec a log is structured when it "has fields beyond the
bare message". -/
def LogEvent.is_structured (l : LogEvent) : Bool :=
  l.fields.any fun p => !(p.1 == MESSAGE)

/-- A metric event (`Metric::Counter`); the f64 value is modelled at the
integral points, which serde_json prints with a trailing ".0". -/
inductive Metric where
  | counter (name : String) (val : Int)
deriving DecidableEq, Repr

/-- JSON serialization of a metric, as `serde_json::to_string(&metric)`
prints it (matching the expectation of the `encodes_metrics` test). -/
def Metric.toJson : Metric → String
  | .counter name val =>
      "\x7b\"type\":\"counter\",\"name\":\"" ++ name ++ "\",\"val\":"
        ++ toString val ++ ".0\x7d"

/-- An event: structurally either a log or a metric. -/
inductive Event where
  | log (l : LogEvent)
  | metric (m : Metric)
deriving DecidableEq, Repr

/-- Modelled from the spec: `event.rs` (`Event::into_log`) is not under
src/. Per the data model an event is structurally either a log or a metric;
coercing a metric into a log has no result (the implementation panics on
that coercion), modelled as `none`. -/
def Event.into_log : Event → Option LogEvent
  | .log l => some l
  | .metric _ => none

/-- JSON serialization of a field mapping, as
`serde_json::to_vec(&log.all_fields())` prints it (field order as iterated;
the strings in this development need no JSON escaping). -/
def jsonOfFields (fields : List (String × Value)) : String :=
  "\x7b"
    ++ String.intercalate "," (fields.map fun p => "\"" ++ p.1 ++ "\":" ++ p.2.toJson)
    ++ "\x7d"

/-- `event_as_string` from src/sinks/util/encoding.rs. The boolean guard
`(log.is_structured() && encoding != &Some(Text)) || encoding == &Some(Json)`
is translated directly into the corresponding proposition. The serde_json
error paths panic in the code and are unreachable in the model, so the
`Result` never carries an error here; the signature keeps the `Result`
shape. -/
def event_as_string (event : Event) (encoding : Option BasicEncoding) :
    Except Unit String :=
  match event with
  | .log log =>
      if (log.is_structured = true ∧ encoding ≠ some BasicEncoding.Text)
          ∨ encoding = some BasicEncoding.Json then
        Except.ok (jsonOfFields log.all_fields)
      else
        Except.ok (((log.get MESSAGE).map Value.to_string_lossy).getD "")
  | .metric metric => Except.ok metric.toJson

/-- `log_event_as_raw_bytes` from src/sinks/util/encoding.rs. The
`event.into_log()` panic on a metric is modelled as `none`; the `Result`
error path (a serde_json panic in the code) is unreachable, so the payload
is returned directly. The match arms keep the source's order:
`(Some(Json), _) | (_, true)` before `(Some(Text), _) | (_, false)`. -/
def log_event_as_raw_bytes (event : Event) (encoding : Option BasicEncoding) :
    Option String :=
  (event.into_log).map fun log =>
    match encoding, log.is_structured with
    | some BasicEncoding.Json, _ => jsonOfFields log.all_fields
    | _, true => jsonOfFields log.all_fields
    | some BasicEncoding.Text, _ => ((log.get MESSAGE).map Value.as_bytes).getD ""
    | _, false => ((log.get MESSAGE).map Value.as_bytes).getD ""

/-- `log_event_as_bytes` from src/sinks/util/encoding.rs (`Bytes::from` is
the identity at the text level). -/
def log_event_as_bytes (event : Event) (encoding : Option BasicEncoding) :
    Option String :=
  log_event_as_raw_bytes event encoding

/-- `log_event_as_bytes_with_nl` from src/sinks/util/encoding.rs: the raw
payload with one newline pushed at the end. -/
def log_event_as_bytes_with_nl (event : Event) (encoding : Option BasicEncoding) :
    Option String :=
  (log_event_as_raw_bytes event encoding).map fun bytes => bytes ++ "\n"

/-- `FileSinkState` from src/sinks/file.rs. The `CreateFuture` held by
`CreatingFile` and the `FramedWrite` held by `FileProvided` enter the model
through the per-call poll oracles below. -/
inductive FileSinkState where
  | Disconnected
  | CreatingFile
  | FileProvided
deriving DecidableEq, Repr

/-- One poll of the pending `CreateFuture` (`create_future.poll()`). -/
inductive CreatePoll where
  | ready
  | notReady
  | err
deriving DecidableEq, Repr

/-- Outcome of the framed writer's own `start_send(line)`. -/
inductive WritePoll where
  | ready
  | notReady
  | err
deriving DecidableEq, Repr

/-- Outcome of the framed writer's own `poll_complete()` (flush). -/
inductive FlushPoll where
  | ready
  | notReady
  | err
deriving DecidableEq, Repr

/-- Result of `FileSink::poll_file`. -/
inductive PollFileOutcome where
  | ready
  | notReady
  | err
deriving DecidableEq, Repr

/-- Result of `FileSink::start_send`: `Ok(AsyncSink::Ready)`,
`Ok(AsyncSink::NotReady(line))`, or the `unreachable!()` panic. -/
inductive SendOutcome where
  | accepted
  | rejected
  | panicked
deriving DecidableEq, Repr

/-- Result of `FileSink::poll_complete`: `Ok(Async::Ready(()))`,
`Ok(Async::NotReady)`, or `Err(())`. -/
inductive CompleteOutcome where
  | ready
  | notReady
  | err
deriving DecidableEq, Repr

/-- `FileSink` from src/sinks/file.rs. -/
structure FileSink where
  path : String
  state : FileSinkState
deriving DecidableEq, Repr

/-- `FileSink::new`. -/
def FileSink.new (path : String) : FileSink :=
  ⟨path, FileSinkState.Disconnected⟩

/-- `FileSink::poll_file`. From `Disconnected` the loop first constructs the
create future (entering `CreatingFile`) and then polls it once in the same
call; from `CreatingFile` it polls the pending future once; `FileProvided`
returns the sink immediately. A failed poll logs, reverts to
`Disconnected`, and returns `Err(())`. -/
def FileSink.poll_file (s : FileSink) (c : CreatePoll) :
    FileSink × PollFileOutcome :=
  match s.state with
  | .FileProvided => (s, .ready)
  | _ =>
      match c with
      | .ready => (⟨s.path, .FileProvided⟩, .ready)
      | .notReady => (⟨s.path, .CreatingFile⟩, .notReady)
      | .err => (⟨s.path, .Disconnected⟩, .err)

/-- `FileSink::start_send`. On a ready file the framed writer's `start_send`
is consulted: its error logs, reverts to `Disconnected` and is returned as
`Ok(AsyncSink::Ready)` (accepted, payload dropped); `Ok(ok)` passes
through. A `NotReady` file rejects the line; a `poll_file` error hits
`unreachable!()`. -/
def FileSink.start_send (s : FileSink) (c : CreatePoll) (w : WritePoll) :
    FileSink × SendOutcome :=
  match s.poll_file c with
  | (s2, .ready) =>
      match w with
      | .err => (⟨s2.path, .Disconnected⟩, .accepted)
      | .ready => (s2, .accepted)
      | .notReady => (s2, .rejected)
  | (s2, .notReady) => (s2, .rejected)
  | (s2, .err) => (s2, .panicked)

/-- `FileSink::poll_complete`. A `Disconnected` sink returns `Ready` at once
(the file is only created after the first event); otherwise `try_ready!`
propagates the `poll_file` outcome (including its error), and on a ready
file the flush is consulted: a flush error logs, reverts to `Disconnected`
and is reported as `Ready`. -/
def FileSink.poll_complete (s : FileSink) (c : CreatePoll) (f : FlushPoll) :
    FileSink × CompleteOutcome :=
  if s.state = FileSinkState.Disconnected then
    (s, .ready)
  else
    match s.poll_file c with
    | (s2, .err) => (s2, .err)
    | (s2, .notReady) => (s2, .notReady)
    | (s2, .ready) =>
        match f with
        | .err => (⟨s2.path, .Disconnected⟩, .ready)
        | .ready => (s2, .ready)
        | .notReady => (s2, .notReady)

/-- Modelled from the spec: `EmbeddedFileSink` and
`FileSink::new_with_encoding` are referenced by src/sinks/partitioned_file.rs
but are not under src/. Per the spec it is a `LazyWriter` with the encoder
embedded: it accepts events, encodes each one
(`log_event_as_bytes_with_nl`), and drives the same file state machine; the
payload's content does not influence the state machine, whose transitions
are decided by the I/O oracles. -/
structure EmbeddedFileSink where
  path : String
  encoding : Option BasicEncoding
  state : FileSinkState
deriving DecidableEq, Repr

/-- `FileSink::new_with_encoding` (modelled from the spec, see
`EmbeddedFileSink`): a fresh writer in the initial `Disconnected` state. -/
def FileSink.new_with_encoding (path : String) (encoding : Option BasicEncoding) :
    EmbeddedFileSink :=
  ⟨path, encoding, FileSinkState.Disconnected⟩

/-- `EmbeddedFileSink::start_send` (modelled from the spec, see
`EmbeddedFileSink`): encodes the event and delegates to the file state
machine. -/
def EmbeddedFileSink.start_send (s : EmbeddedFileSink) (_event : Event)
    (c : CreatePoll) (w : WritePoll) : EmbeddedFileSink × SendOutcome :=
  match FileSink.start_send ⟨s.path, s.state⟩ c w with
  | (s2, r) => (⟨s.path, s.encoding, s2.state⟩, r)

/-- `EmbeddedFileSink::poll_complete` (modelled from the spec, see
`EmbeddedFileSink`): delegates to the file state machine. -/
def EmbeddedFileSink.poll_complete (s : EmbeddedFileSink) (c : CreatePoll)
    (f : FlushPoll) : EmbeddedFileSink × CompleteOutcome :=
  match FileSink.poll_complete ⟨s.path, s.state⟩ c f with
  | (s2, r) => (⟨s.path, s.encoding, s2.state⟩, r)

/-- One piece of a path template: a literal or a field reference. -/
inductive TemplatePart where
  | lit (s : String)
  | field (name : String)
deriving DecidableEq, Repr

/-- Modelled from the spec: the template engine (`template.rs`) is not under
src/. Per the spec it is consumed as a pure function
`render(event) -> Result<String, set-of-missing-keys>`. -/
structure Template where
  parts : List TemplatePart
deriving DecidableEq, Repr

/-- Modelled from the spec (see `Template`): rendering substitutes each
referenced field's textual form; if any referenced field is absent from the
event, the missing keys are returned as the failure. -/
def Template.render (t : Template) (event : Event) :
    Except (List String) String :=
  let fields := ((event.into_log).map LogEvent.all_fields).getD []
  let missing := t.parts.filterMap fun p =>
    match p with
    | .lit _ => none
    | .field n =>
        if (fields.find? fun q => q.1 == n).isNone then some n else none
  if missing.isEmpty then
    Except.ok (String.join (t.parts.map fun p =>
      match p with
      | .lit s => s
      | .field n =>
          (((fields.find? fun q => q.1 == n).map fun q => q.2.to_string_lossy).getD "")))
  else
    Except.error missing

/-- `PartitionedFileSink` from src/sinks/partitioned_file.rs; the
`HashMap<PathBuf, EmbeddedFileSink>` pool is an assoc list. -/
structure PartitionedFileSink where
  path_template : Template
  encoding : Option BasicEncoding
  partitions : List (String × EmbeddedFileSink)
deriving DecidableEq

/-- `PartitionedFileSink::new`: empty pool. -/
def PartitionedFileSink.new (t : Template) (encoding : Option BasicEncoding) :
    PartitionedFileSink :=
  ⟨t, encoding, []⟩

/-- Outcome of `PartitionedFileSink::start_send`. `renderStuck` models the
render-failure path of the source: the closure passed to `unwrap_or_else`
logs the missing keys and does `return None`, which exits only the closure,
and the continuation `PathBuf::from(String::from(..))` applied to the
closure's value is ill-typed — there is no well-typed continuation, so the
model stops there. -/
inductive RouteOutcome where
  | send (r : SendOutcome)
  | renderStuck (missing : List String)
deriving DecidableEq, Repr

/-- `PartitionedFileSink::start_send` from src/sinks/partitioned_file.rs: on
a successful render a NEW writer is constructed with
`FileSink::new_with_encoding` and the event is sent to it; the pool
`self.partitions` is never consulted or updated, and the fresh writer is a
local that is dropped when the call returns (only its send outcome
survives). -/
def PartitionedFileSink.start_send (sink : PartitionedFileSink) (event : Event)
    (c : CreatePoll) (w : WritePoll) : PartitionedFileSink × RouteOutcome :=
  match sink.path_template.render event with
  | .error missing_keys => (sink, .renderStuck missing_keys)
  | .ok bytes =>
      let path := bytes
      let partition := FileSink.new_with_encoding path sink.encoding
      (sink, .send (partition.start_send event c w).2)

/-- `PartitionedFileSink::poll_complete` from src/sinks/partitioned_file.rs:
every pooled writer is polled (its per-writer oracle supplies the create and
flush outcomes), an `Err` is logged and otherwise every per-writer outcome
is discarded, and the call always returns `Ok(Async::Ready(()))`. -/
def PartitionedFileSink.poll_complete (sink : PartitionedFileSink)
    (oracle : String → CreatePoll × FlushPoll) :
    PartitionedFileSink × CompleteOutcome :=
  let partitions := sink.partitions.map fun p =>
    (p.1, (p.2.poll_complete (oracle p.1).1 (oracle p.1).2).1)
  (⟨sink.path_template, sink.encoding, partitions⟩, .ready)

/-- Folding `start_send` over a sequence of events, each with its I/O
oracle: the sink state reached after routing the whole sequence. -/
def PartitionedFileSink.run :
    PartitionedFileSink → List (Event × CreatePoll × WritePoll) → PartitionedFileSink
  | sink, [] => sink
  | sink, e :: rest =>
      PartitionedFileSink.run (sink.start_send e.1 e.2.1 e.2.2).1 rest

/-- `PartitionedFileSinkConfig` from src/sinks/partitioned_file.rs. -/
structure PartitionedFileSinkConfig where
  path_template : String
  close_timeout_secs : Nat
  encoding : Option BasicEncoding

/-- `default_close_timeout_secs`. -/
def default_close_timeout_secs : Nat := 60

/-- Resolved result of the startup health probe that
`PartitionedFileSinkConfig::build` returns: `Box::new(future::ok(()))`,
unconditionally successful. -/
def PartitionedFileSinkConfig.build_probe (_cfg : PartitionedFileSinkConfig) :
    Except String Unit :=
  Except.ok ()

/-- `Target` from src/sinks/console.rs. -/
inductive Target where
  | Stdout
  | Stderr
deriving DecidableEq, Repr

/-- `ConsoleSinkConfig` from src/sinks/console.rs. -/
structure ConsoleSinkConfig where
  target : Target
  encoding : Option BasicEncoding

/-- Resolved result of the startup health probe that
`ConsoleSinkConfig::build` returns: `Box::new(future::ok(()))`,
unconditionally successful. -/
def ConsoleSinkConfig.build_probe (_cfg : ConsoleSinkConfig) :
    Except String Unit :=
  Except.ok ()

/-- `file_healthcheck` from src/sinks/file.rs: succeeds exactly when the
configured path exists (`path.exists()` is modelled as the boolean
argument). -/
def file_healthcheck (path_exists : Bool) : Except String Unit :=
  if path_exists then Except.ok () else Except.error "File doesn't exist."

/- Helper lemmas shared by the claim theorems. -/

/-- The byte form and the textual form of a value coincide at the UTF-8
text level of the model. -/
lemma value_as_bytes_eq : Value.as_bytes = Value.to_string_lossy := rfl

/-- `PartitionedFileSink::start_send` returns the sink unchanged: in
particular the pool `partitions` is never updated. -/
lemma partitioned_start_send_fst (s : PartitionedFileSink) (e : Event)
    (c : CreatePoll) (w : WritePoll) : (s.start_send e c w).1 = s := by
  cases hr : s.path_template.render e <;>
    simp [PartitionedFileSink.start_send, hr]

/-- Routing any sequence of events leaves the partitioned sink unchanged. -/
lemma partitioned_run_id (evs : List (Event × CreatePoll × WritePoll)) :
    ∀ s : PartitionedFileSink, s.run evs = s := by
  induction evs with
  | nil => intro s; rfl
  | cons e rest ih =>
      intro s
      have h1 : s.run (e :: rest) = ((s.start_send e.1 e.2.1 e.2.2).1).run rest := rfl
      rw [h1, partitioned_start_send_fst]
      exact ih s

/- Concrete inputs used by the claim theorems. -/

/-- A partitioned sink whose pool holds one writer that is mid-open. -/
def c2_sink : PartitionedFileSink :=
  ⟨⟨[]⟩, none, [("a.log", ⟨"a.log", none, FileSinkState.CreatingFile⟩)]⟩

/-- I/O oracle under which that writer's pending open stays unresolved. -/
def c2_oracle : String → CreatePoll × FlushPoll :=
  fun _ => (CreatePoll.notReady, FlushPoll.ready)

/-- The key template of the missing-key scenario: `"\x7bmissing\x7d.log"`. -/
def c4_template : Template :=
  ⟨[TemplatePart.field "missing", TemplatePart.lit ".log"]⟩

/-- An event that lacks the field the template references. -/
def c4_event : Event :=
  Event.log ⟨[("message", Value.str "no key here")]⟩

/-- A structured log with fields a = 1 and message = "x". -/
def c5_log : LogEvent :=
  ⟨[("a", Value.int 1), ("message", Value.str "x")]⟩

/-- A structured log with fields b = 2 and message = "y". -/
def c6_log : LogEvent :=
  ⟨[("b", Value.int 2), ("message", Value.str "y")]⟩

/-- A concrete metric event. -/
def c9_metric : Metric := Metric.counter "foos" 100

/- Claim theorems. -/

/-- Claim C1: the claim states that a writer is created once per distinct
destination key, inserted into the pool before use, and reused for every
later event with that key. The code does the opposite: `start_send` leaves
the sink (and so the pool) completely unchanged on every call, and from the
initial sink the pool is empty after any sequence of routed events — every
event is offered to a freshly constructed writer instead. -/
theorem claim_C1_pool_never_populated :
    (∀ (s : PartitionedFileSink) (e : Event) (c : CreatePoll) (w : WritePoll),
        (s.start_send e c w).1 = s)
    ∧ ∀ (t : Template) (enc : Option BasicEncoding)
        (evs : List (Event × CreatePoll × WritePoll)),
        ((PartitionedFileSink.new t enc).run evs).partitions = [] := by
  constructor
  · exact partitioned_start_send_fst
  · intro t enc evs
    rw [partitioned_run_id]
    rfl

/-- Claim C2: the claim states `poll_complete` aggregates to `Pending` when
any pooled writer is `Pending`. In the code the per-writer outcomes are
discarded: here the single pooled writer's own `poll_complete` is
`NotReady` (its open is still pending), yet the sink's `poll_complete`
returns `Ready`. -/
theorem claim_C2_completion_not_awaited :
    (FileSink.poll_complete ⟨"a.log", FileSinkState.CreatingFile⟩
        CreatePoll.notReady FlushPoll.ready).2 = CompleteOutcome.notReady
    ∧ (c2_sink.poll_complete c2_oracle).2 = CompleteOutcome.ready :=
  ⟨rfl, rfl⟩

/-- Claim C3 counterexample: the claim states an open failure is never
surfaced as an error value or a panic. At a concrete input an open failure
during `poll_complete` is returned as `Err` (via `try_ready!`), and the
same failure during `start_send` hits the `unreachable!()` panic. -/
theorem claim_C3_counterexample :
    (FileSink.poll_complete ⟨"out.log", FileSinkState.CreatingFile⟩
        CreatePoll.err FlushPoll.ready).2 = CompleteOutcome.err
    ∧ (FileSink.start_send ⟨"out.log", FileSinkState.Disconnected⟩
        CreatePoll.err WritePoll.ready).2 = SendOutcome.panicked :=
  ⟨rfl, rfl⟩

/-- Claim C3 amended: an open failure reverts the state to `Disconnected`
with the failure logged, but it is surfaced at the sink boundary: during
`poll_complete` it is returned as an error value, and during `start_send`
it reaches the `unreachable!()` panic. -/
theorem claim_C3_amended (p : String) (f : FlushPoll) (w : WritePoll) :
    FileSink.poll_complete ⟨p, FileSinkState.CreatingFile⟩ CreatePoll.err f
        = (⟨p, FileSinkState.Disconnected⟩, CompleteOutcome.err)
    ∧ FileSink.start_send ⟨p, FileSinkState.CreatingFile⟩ CreatePoll.err w
        = (⟨p, FileSinkState.Disconnected⟩, SendOutcome.panicked) :=
  ⟨rfl, rfl⟩

/-- Claim C4: the claim states a missing-key event is logged and cleanly
dropped. In the code the warn fires but the early return exits only the
`unwrap_or_else` closure, leaving an ill-typed continuation (modelled as
`renderStuck`): at the failing input no writer is created and nothing is
offered, but there is no well-typed drop path either. -/
theorem claim_C4_render_failure_path (c : CreatePoll) (w : WritePoll) :
    (PartitionedFileSink.new c4_template none).start_send c4_event c w
      = (PartitionedFileSink.new c4_template none,
          RouteOutcome.renderStuck ["missing"]) := by
  rfl

/-- Claim C5: the claim states mode `Text` always emits exactly the
message's text. For the structured log with fields a = 1 and message = "x",
`log_event_as_raw_bytes` under `Some(Text)` emits the JSON of all fields
(the `(_, true)` match arm precedes the `(Some(Text), _)` arm), while its
sibling `event_as_string` honors `Text` and emits "x" as the spec states. -/
theorem claim_C5_text_mode_ignored_for_structured :
    log_event_as_raw_bytes (Event.log c5_log) (some BasicEncoding.Text)
        = some "\x7b\"a\":1,\"message\":\"x\"\x7d"
    ∧ event_as_string (Event.log c5_log) (some BasicEncoding.Text)
        = Except.ok "x" := by
  constructor <;> decide

/-- Claim C6 counterexample: the claim states `event_as_string` always
equals the decoded bytes of `log_event_as_bytes`. For a structured log with
fields b = 2 and message = "y" under mode `Text`, the string variant
returns "y" while the byte variant returns the JSON of all fields. -/
theorem claim_C6_counterexample :
    event_as_string (Event.log c6_log) (some BasicEncoding.Text) = Except.ok "y"
    ∧ log_event_as_bytes (Event.log c6_log) (some BasicEncoding.Text)
        = some "\x7b\"b\":2,\"message\":\"y\"\x7d"
    ∧ "\x7b\"b\":2,\"message\":\"y\"\x7d" ≠ "y" := by
  refine ⟨by decide, by decide, by decide⟩

/-- Claim C6 amended: for every log event and mode,
`log_event_as_bytes_with_nl` is exactly `log_event_as_bytes` with one
newline appended, and `event_as_string` agrees with the content of
`log_event_as_bytes` in every case except mode `Text` on a structured log,
where the string variant returns the message's text while the byte variants
return the JSON of all fields. -/
theorem claim_C6_amended (l : LogEvent) (enc : Option BasicEncoding) :
    log_event_as_bytes_with_nl (Event.log l) enc
        = (log_event_as_bytes (Event.log l) enc).map (fun s => s ++ "\n")
    ∧ ((enc = some BasicEncoding.Text ∧ l.is_structured = true)
        ∨ log_event_as_bytes (Event.log l) enc
            = (event_as_string (Event.log l) enc).toOption) := by
  constructor
  · rfl
  · cases enc with
    | none =>
        cases h : l.is_structured
        · exact Or.inr (by
            simp [log_event_as_bytes, log_event_as_raw_bytes, event_as_string,
              Event.into_log, Except.toOption, value_as_bytes_eq, h])
        · exact Or.inr (by
            simp [log_event_as_bytes, log_event_as_raw_bytes, event_as_string,
              Event.into_log, Except.toOption, value_as_bytes_eq, h])
    | some e =>
        cases e with
        | Text =>
            cases h : l.is_structured
            · exact Or.inr (by
                simp [log_event_as_bytes, log_event_as_raw_bytes, event_as_string,
                  Event.into_log, Except.toOption, value_as_bytes_eq, h])
            · exact Or.inl ⟨rfl, rfl⟩
        | Json =>
            cases h : l.is_structured <;>
              exact Or.inr (by
                simp [log_event_as_bytes, log_event_as_raw_bytes, event_as_string,
                  Event.into_log, Except.toOption, value_as_bytes_eq, h])

/-- Claim C7: a `FileSink` on which no write was ever attempted (state
`Disconnected`) completes immediately: `poll_complete` returns `Ready`, the
state stays `Disconnected`, and no create is initiated (the outcome is the
same for every create/flush oracle). -/
theorem claim_C7_lazy_completion (p : String) (c : CreatePoll) (f : FlushPoll) :
    FileSink.poll_complete ⟨p, FileSinkState.Disconnected⟩ c f
      = (⟨p, FileSinkState.Disconnected⟩, CompleteOutcome.ready) :=
  rfl

/-- Claim C8: in the `FileProvided` (open) state, a write-acceptance
failure during `start_send` reverts the state to `Disconnected` and is
returned as accepted, and a flush failure during `poll_complete` reverts
the state to `Disconnected` and is reported as `Ready`, not as an error. -/
theorem claim_C8_open_state_failures_absorbed (p : String) (c c2 : CreatePoll) :
    FileSink.start_send ⟨p, FileSinkState.FileProvided⟩ c WritePoll.err
        = (⟨p, FileSinkState.Disconnected⟩, SendOutcome.accepted)
    ∧ FileSink.poll_complete ⟨p, FileSinkState.FileProvided⟩ c2 FlushPoll.err
        = (⟨p, FileSinkState.Disconnected⟩, CompleteOutcome.ready) :=
  ⟨rfl, rfl⟩

/-- Claim C9 counterexample: the claim states every encode variant succeeds
on a metric with its JSON serialization. For the concrete counter metric,
`log_event_as_bytes` has no result (the `into_log` coercion fails on a
metric), while `event_as_string` does produce the metric's JSON. -/
theorem claim_C9_counterexample :
    log_event_as_bytes (Event.metric c9_metric) none = none
    ∧ event_as_string (Event.metric c9_metric) none
        = Except.ok "\x7b\"type\":\"counter\",\"name\":\"foos\",\"val\":100.0\x7d" :=
  ⟨rfl, by decide⟩

/-- Claim C9 amended: for every metric and every mode, `event_as_string`
succeeds with the metric's JSON serialization, while the log-oriented byte
variants (`log_event_as_raw_bytes`, `log_event_as_bytes`,
`log_event_as_bytes_with_nl`) have no result on a metric: they coerce the
event with `into_log`, which fails on a metric. -/
theorem claim_C9_amended (m : Metric) (enc : Option BasicEncoding) :
    event_as_string (Event.metric m) enc = Except.ok m.toJson
    ∧ log_event_as_raw_bytes (Event.metric m) enc = none
    ∧ log_event_as_bytes (Event.metric m) enc = none
    ∧ log_event_as_bytes_with_nl (Event.metric m) enc = none :=
  ⟨rfl, rfl, rfl, rfl⟩

/-- Claim C10: for every partitioned-file configuration and every console
configuration the startup health probe returned by `build` succeeds
unconditionally, while the single-file sink's probe `file_healthcheck`
succeeds exactly when the destination path exists. -/
theorem claim_C10_healthchecks (cfgP : PartitionedFileSinkConfig)
    (cfgC : ConsoleSinkConfig) (path_exists : Bool) :
    cfgP.build_probe = Except.ok ()
    ∧ cfgC.build_probe = Except.ok ()
    ∧ (file_healthcheck path_exists = Except.ok () ↔ path_exists = true) := by
  refine ⟨rfl, rfl, ?_⟩
  cases path_exists <;> simp [file_healthcheck]

end VectorSinks
